import Mathlib

/-!
Verification of the `dbl` client library (file `dbl/client.py`) against its
natural-language specification.  The Python client is shallowly embedded:
the client object becomes an explicit state record, each facade method
becomes a Lean function from the state and its arguments to the HTTP
request it would issue (and, for mutating methods, the successor state),
and Python exceptions become `Except` values.
-/

namespace DBL

/-- A host bot object as the client sees it.  `guilds` / `servers` are
`none` when the attribute is absent on the host object (reading an absent
attribute raises `AttributeError` in Python). -/
structure Bot where
  guilds : Option (List Nat)
  servers : Option (List Nat)
  userId : Int
  deriving Repr, DecidableEq

/-- The state of a `Client` instance: the host bot, the cached bot
identifier (`self.bot_id`, `None` until the readiness task runs), the
closed flag (`self._is_closed`) and a count of how many times the
underlying HTTP session release (`self.http.close()`) has been invoked. -/
structure ClientState where
  bot : Bot
  bot_id : Option Int
  is_closed : Bool
  httpCloseCalls : Nat
  deriving Repr, DecidableEq

/-- The state produced by `Client.__init__`: `bot_id` starts as `None`,
the closed flag `False`, and no session release has happened yet. -/
def initState (bot : Bot) : ClientState :=
  { bot := bot, bot_id := none, is_closed := false, httpCloseCalls := 0 }

/-- The body of the readiness task `Client.__ainit__`: after the host
signals ready, store the host identifier in `bot_id`. -/
def ainit (c : ClientState) : ClientState :=
  { c with bot_id := some c.bot.userId }

/-- An HTTP request as handed to the HTTP layer by the facade methods. -/
inductive Request where
  | postServerCount (bot_id : Option Int) (guildCount : Nat)
      (shard_count shard_no : Option Int)
  | getServerCount (bot_id : Option Int)
  | getUpvoteInfo (bot_id : Option Int) (onlyids : Bool) (days : Int)
  | getBotInfo (bot_id : Option Int)
  | getBots (limit : Int) (offset : Int)
  | getUserInfo (user_id : Int)
  deriving Repr, DecidableEq

/-- How Python renders a value interpolated with `str.format`: the
integer in decimal, or the literal text `None` for an unset id. -/
def pyStr : Option Int → String
  | none => "None"
  | some n => toString n

/-- The id-defaulting idiom `if bot_id is None: bot_id = self.bot_id`
shared by `get_server_count`, `get_bot_info` and the four widget
methods (in Python an explicitly passed `None` and an omitted argument
are indistinguishable here). -/
def resolveId (c : ClientState) (bot_id : Option Int) : Option Int :=
  match bot_id with
  | none => c.bot_id
  | some v => some v

/-- `Client.guild_count`: `len(self.bot.guilds)`, falling back to
`len(self.bot.servers)` on `AttributeError`; if both attributes are
absent the `AttributeError` escapes. -/
def guild_count (c : ClientState) : Except String Nat :=
  match c.bot.guilds with
  | some gs => .ok gs.length
  | none =>
    match c.bot.servers with
    | some ss => .ok ss.length
    | none => .error "AttributeError"

/-- `Client.post_server_count`: posts `self.bot_id` together with the
current guild count; the request carries the shard parameters through.
An `AttributeError` from `guild_count` propagates before any request. -/
def post_server_count (c : ClientState) (shard_count shard_no : Option Int) :
    Except String Request :=
  match guild_count c with
  | .error e => .error e
  | .ok n => .ok (Request.postServerCount c.bot_id n shard_count shard_no)

/-- `Client.get_server_count`: defaults the id, then asks the HTTP layer. -/
def get_server_count (c : ClientState) (bot_id : Option Int) : Request :=
  Request.getServerCount (resolveId c bot_id)

/-- `Client.get_bot_info`: defaults the id, then asks the HTTP layer. -/
def get_bot_info (c : ClientState) (bot_id : Option Int) : Request :=
  Request.getBotInfo (resolveId c bot_id)

/-- The keyword arguments a caller may hand to `Client.get_upvote_info`.
An outer `none` means the key is absent from `kwargs`; `bot_id` of
`some none` means the key is present with value `None`.  The field
`only_ids` stands for a caller passing a keyword literally named
`only_ids`; the code never reads that key. -/
structure UpvoteKwargs where
  bot_id : Option (Option Int)
  onlyids : Option Bool
  only_ids : Option Bool
  days : Option Int
  deriving Repr, DecidableEq

/-- `Client.get_upvote_info`: reads `kwargs.get('bot_id', self.bot_id)`,
`kwargs.get('onlyids', False)` and `kwargs.get('days', 31)` and forwards
them to the HTTP layer.  Note `kwargs.get` only substitutes the default
when the key is absent, so a present `bot_id` of `None` stays `None`. -/
def get_upvote_info (c : ClientState) (kwargs : UpvoteKwargs) : Request :=
  Request.getUpvoteInfo (kwargs.bot_id.getD c.bot_id)
    (kwargs.onlyids.getD false) (kwargs.days.getD 31)

/-- `Client.get_bots`: passes `limit` and `offset` through unchanged. -/
def get_bots (limit offset : Int) : Request :=
  Request.getBots limit offset

/-- `Client.get_user_info`: passes `user_id` through unchanged. -/
def get_user_info (user_id : Int) : Request :=
  Request.getUserInfo user_id

/-- `Client.generate_widget_large`: builds the large-widget URL from the
resolved id and the seven color strings.  The body issues no HTTP
request and assigns no attribute of `self`, so the request log is empty
and the state is returned unchanged. -/
def generate_widget_large (c : ClientState) (bot_id : Option Int)
    (top mid user cert data label highlight : String) :
    String × List Request × ClientState :=
  ("https://discordbots.org/api/widget/" ++ pyStr (resolveId c bot_id)
      ++ ".png?topcolor=" ++ top ++ "&middlecolor=" ++ mid
      ++ "&usernamecolor=" ++ user ++ "&certifiedcolor=" ++ cert
      ++ "&datacolor=" ++ data ++ "&labelcolor=" ++ label
      ++ "&highlightcolor=" ++ highlight,
    [], c)

/-- `Client.generate_widget_small`: builds the small-widget URL.  The
format string interpolates the text colors before the left and right
background colors even though the arguments arrive in the other order.
No HTTP request is issued and the state is unchanged. -/
def generate_widget_small (c : ClientState) (bot_id : Option Int)
    (avabg lcol rcol ltxt rtxt : String) :
    String × List Request × ClientState :=
  ("https://discordbots.org/api/widget/lib/" ++ pyStr (resolveId c bot_id)
      ++ ".png?avatarbg=" ++ avabg ++ "&lefttextcolor=" ++ ltxt
      ++ "&righttextcolor=" ++ rtxt ++ "&leftcolor=" ++ lcol
      ++ "&rightcolor=" ++ rcol,
    [], c)

/-- The default color arguments of `generate_widget_large`. -/
def generate_widget_large_defaults (c : ClientState) (bot_id : Option Int) :
    String × List Request × ClientState :=
  generate_widget_large c bot_id "2C2F33" "23272A" "FFFFFF" "FFFFFF"
    "FFFFFF" "99AAB5" "2C2F33"

/-- The default color arguments of `generate_widget_small`. -/
def generate_widget_small_defaults (c : ClientState) (bot_id : Option Int) :
    String × List Request × ClientState :=
  generate_widget_small c bot_id "2C2F33" "23272A" "2C2F33" "FFFFFF" "FFFFFF"

/-- `Client.get_widget_large`: the bare large-widget URL, no query
string. -/
def get_widget_large (c : ClientState) (bot_id : Option Int) : String :=
  "https://discordbots.org/api/widget/" ++ pyStr (resolveId c bot_id) ++ ".png"

/-- `Client.get_widget_small`: the bare small-widget URL, no query
string. -/
def get_widget_small (c : ClientState) (bot_id : Option Int) : String :=
  "https://discordbots.org/api/widget/lib/" ++ pyStr (resolveId c bot_id)
    ++ ".png"

/-- `Client.close`: a no-op when already closed; otherwise it awaits the
session release and only then records the closed state.  `outcome` is
what the underlying `self.http.close()` call produces when invoked; a
raised exception propagates, leaving `_is_closed` untouched. -/
def close (c : ClientState) (outcome : Except String Unit) :
    ClientState × Except String Unit :=
  if c.is_closed then (c, .ok ())
  else
    match outcome with
    | .ok () =>
      ({ c with httpCloseCalls := c.httpCloseCalls + 1, is_closed := true },
        .ok ())
    | .error e =>
      ({ c with httpCloseCalls := c.httpCloseCalls + 1 }, .error e)

instance : DecidableEq (Except String Unit) := fun a b =>
  match a, b with
  | .ok (), .ok () => isTrue rfl
  | .ok (), .error _ => isFalse fun h => Except.noConfusion h
  | .error _, .ok () => isFalse fun h => Except.noConfusion h
  | .error e, .error f =>
    if h : e = f then isTrue (by rw [h])
    else isFalse fun hef => h (by injection hef)

/-- The state-mutating events in the life of a client: the readiness
task completing, and a call to `close` (tagged with the outcome the
underlying session release would produce).  The query methods above
mutate nothing and so are not events. -/
inductive Event where
  | ainitDone
  | closeCall (outcome : Except String Unit)
  deriving Repr, DecidableEq

/-- One lifecycle step of the client state. -/
def step (c : ClientState) (e : Event) : ClientState :=
  match e with
  | .ainitDone => ainit c
  | .closeCall o => (close c o).1

/-- A running client over a trace of events. -/
def run (b : Bot) (es : List Event) : ClientState :=
  es.foldl step (initState b)

/-- A concrete host bot for witnesses: two guilds, no legacy attribute,
identifier 5. -/
def sampleBot : Bot :=
  { guilds := some [10, 11], servers := none, userId := 5 }

/-- A concrete client whose readiness task has run: `bot_id = some 5`. -/
def sampleClientReady : ClientState :=
  ainit (initState sampleBot)

/-- The typed errors the HTTP layer can signal. -/
inductive DBLError where
  | unauthorized
  | notFound
  | rateLimited
  | httpError (status : Nat)
  deriving Repr, DecidableEq

/-- Modelled from the spec: the HTTP layer (file `dbl/http.py`, which is
not under `src/`) translates the response of every request.  Per the
spec: a 2xx status returns the decoded JSON body; status 401/403
signals an authorization error; 404 a not-found error; 429 a
rate-limited error; any other non-2xx status a generic request error
carrying the status code. -/
def handleResponse (status : Nat) (body : String) : Except DBLError String :=
  if 200 ≤ status ∧ status < 300 then .ok body
  else if status = 401 ∨ status = 403 then .error .unauthorized
  else if status = 404 then .error .notFound
  else if status = 429 then .error .rateLimited
  else .error (.httpError status)

/- Helper lemmas about the lifecycle step function. -/

lemma resolveId_self (c : ClientState) : resolveId c c.bot_id = c.bot_id := by
  cases h : c.bot_id <;> simp [resolveId, h]

lemma resolveId_none (c : ClientState) : resolveId c none = c.bot_id := rfl

instance : DecidableEq (Except DBLError String) := fun a b =>
  match a, b with
  | .ok x, .ok y =>
    if h : x = y then isTrue (by rw [h])
    else isFalse fun he => h (by injection he)
  | .ok _, .error _ => isFalse fun h => Except.noConfusion h
  | .error _, .ok _ => isFalse fun h => Except.noConfusion h
  | .error x, .error y =>
    if h : x = y then isTrue (by rw [h])
    else isFalse fun he => h (by injection he)

lemma close_fst_bot_id (c : ClientState) (o : Except String Unit) :
    ((close c o).1).bot_id = c.bot_id := by
  cases o <;> unfold close <;> split <;> rfl

lemma close_fst_bot (c : ClientState) (o : Except String Unit) :
    ((close c o).1).bot = c.bot := by
  cases o <;> unfold close <;> split <;> rfl

lemma step_bot (c : ClientState) (e : Event) : (step c e).bot = c.bot := by
  cases e with
  | ainitDone => rfl
  | closeCall o => exact close_fst_bot c o

lemma step_bot_id_of_ne (c : ClientState) (e : Event)
    (h : e ≠ Event.ainitDone) : (step c e).bot_id = c.bot_id := by
  cases e with
  | ainitDone => exact absurd rfl h
  | closeCall o => exact close_fst_bot_id c o

lemma step_preserves_ready (c : ClientState) (e : Event)
    (h : c.bot_id = some c.bot.userId) :
    (step c e).bot_id = some (step c e).bot.userId := by
  cases e with
  | ainitDone => simp [step, ainit]
  | closeCall o =>
    rw [step, close_fst_bot_id c o, close_fst_bot c o]
    exact h

lemma foldl_bot_id_of_no_ainit (es : List Event) :
    ∀ c : ClientState, Event.ainitDone ∉ es →
      (es.foldl step c).bot_id = c.bot_id := by
  induction es with
  | nil => intro c _; rfl
  | cons e tl ih =>
    intro c hmem
    rw [List.foldl_cons, ih (step c e) (fun h => hmem (List.mem_cons_of_mem e h)),
      step_bot_id_of_ne c e (fun h => hmem (h ▸ List.mem_cons_self e tl))]

lemma foldl_ready_stable (es : List Event) :
    ∀ c : ClientState, c.bot_id = some c.bot.userId →
      (es.foldl step c).bot_id = some (es.foldl step c).bot.userId := by
  induction es with
  | nil => intro c h; exact h
  | cons e tl ih =>
    intro c h
    rw [List.foldl_cons]
    exact ih (step c e) (step_preserves_ready c e h)

lemma foldl_bot (es : List Event) :
    ∀ c : ClientState, (es.foldl step c).bot = c.bot := by
  induction es with
  | nil => intro c; rfl
  | cons e tl ih =>
    intro c
    rw [List.foldl_cons, ih (step c e), step_bot]

lemma foldl_bot_id_of_ainit (es : List Event) :
    ∀ c : ClientState, Event.ainitDone ∈ es →
      (es.foldl step c).bot_id = some c.bot.userId := by
  induction es with
  | nil => intro c h; exact absurd h (List.not_mem_nil _)
  | cons e tl ih =>
    intro c hmem
    rw [List.foldl_cons]
    by_cases he : e = Event.ainitDone
    · subst he
      have hready : (step c Event.ainitDone).bot_id
          = some (step c Event.ainitDone).bot.userId := by
        simp [step, ainit]
      have := foldl_ready_stable tl (step c Event.ainitDone) hready
      rw [this, foldl_bot tl (step c Event.ainitDone), step_bot]
    · have htl : Event.ainitDone ∈ tl := by
        rcases List.mem_cons.mp hmem with h | h
        · exact absurd h.symm he
        · exact h
      rw [ih (step c e) htl, step_bot]

/-- C1: generate_widget_small called with bot_id 123 and every other
parameter at its default returns exactly the string
https://discordbots.org/api/widget/lib/123.png?avatarbg=2C2F33&lefttextcolor=FFFFFF&righttextcolor=FFFFFF&leftcolor=23272A&rightcolor=2C2F33
in which the two text-color query parameters precede the two
background-color parameters, although the background-color arguments
precede the text-color arguments in the signature. -/
theorem c1_generate_widget_small_example (c : ClientState) :
    (generate_widget_small_defaults c (some 123)).1
      = "https://discordbots.org/api/widget/lib/123.png?avatarbg=2C2F33&lefttextcolor=FFFFFF&righttextcolor=FFFFFF&leftcolor=23272A&rightcolor=2C2F33" :=
  rfl

/-- C2: when the host bot exposes a servers collection but no guilds
attribute, guild_count returns the length of servers (no
AttributeError escapes) and post_server_count reports that count; when
guilds is present its length is used and servers is never consulted. -/
theorem c2_guild_count_fallback (c : ClientState) :
    (∀ ss : List Nat, c.bot.guilds = none → c.bot.servers = some ss →
      guild_count c = .ok ss.length ∧
      ∀ sc sn : Option Int, post_server_count c sc sn
        = .ok (Request.postServerCount c.bot_id ss.length sc sn)) ∧
    (∀ gs : List Nat, c.bot.guilds = some gs → guild_count c = .ok gs.length) := by
  constructor
  · intro ss hg hs
    have hgc : guild_count c = .ok ss.length := by
      unfold guild_count
      rw [hg, hs]
    exact ⟨hgc, fun sc sn => by unfold post_server_count; rw [hgc]⟩
  · intro gs hg
    unfold guild_count
    rw [hg]

/-- Witness for C2 at a legacy host exposing only servers, of size 3. -/
theorem c2_guild_count_fallback_witness :
    guild_count (initState { guilds := none, servers := some [1, 2, 3], userId := 7 })
      = .ok 3 :=
  ((c2_guild_count_fallback
    (initState { guilds := none, servers := some [1, 2, 3], userId := 7 })).1
    [1, 2, 3] rfl rfl).1

/-- C3: close is idempotent: once a close call has succeeded, any later
close call returns without error, without invoking the underlying
session release again, and with the whole client state unchanged. -/
theorem c3_close_idempotent (c : ClientState) (o1 o2 : Except String Unit)
    (h : (close c o1).2 = .ok ()) :
    close (close c o1).1 o2 = ((close c o1).1, Except.ok ()) := by
  by_cases hc : c.is_closed
  · simp only [close, hc, if_true]
  · cases o1 with
    | ok u =>
      cases u
      have h1 : close c (Except.ok ())
          = ({ c with
                httpCloseCalls := c.httpCloseCalls + 1,
                is_closed := true }, Except.ok ()) := by
        simp [close, hc]
      rw [h1]
      simp [close]
    | error e =>
      exact absurd h (by simp [close, hc])

/-- Witness for C3: closing a fresh client twice. -/
theorem c3_close_idempotent_witness :
    close (close (initState sampleBot) (.ok ())).1 (.ok ())
      = ((close (initState sampleBot) (.ok ())).1, Except.ok ()) :=
  c3_close_idempotent (initState sampleBot) (.ok ()) (.ok ()) rfl

/-- C4: the widget generators are pure and deterministic: two calls at
the same arguments return the same string, the request log is empty (no
network I/O) and the client state is returned unchanged; with bot_id
omitted the URL uses the resolved client identifier. -/
theorem c4_widgets_pure (c : ClientState)
    (bot_id : Option Int)
    (top mid user cert data label highlight : String)
    (avabg lcol rcol ltxt rtxt : String) :
    generate_widget_large c bot_id top mid user cert data label highlight
      = generate_widget_large c bot_id top mid user cert data label highlight ∧
    (generate_widget_large c bot_id top mid user cert data label highlight).2.1 = [] ∧
    (generate_widget_large c bot_id top mid user cert data label highlight).2.2 = c ∧
    generate_widget_small c bot_id avabg lcol rcol ltxt rtxt
      = generate_widget_small c bot_id avabg lcol rcol ltxt rtxt ∧
    (generate_widget_small c bot_id avabg lcol rcol ltxt rtxt).2.1 = [] ∧
    (generate_widget_small c bot_id avabg lcol rcol ltxt rtxt).2.2 = c ∧
    (∀ v : Int, c.bot_id = some v →
      generate_widget_large c none top mid user cert data label highlight
        = generate_widget_large c (some v) top mid user cert data label highlight ∧
      generate_widget_small c none avabg lcol rcol ltxt rtxt
        = generate_widget_small c (some v) avabg lcol rcol ltxt rtxt) := by
  refine ⟨rfl, rfl, rfl, rfl, rfl, rfl, fun v hv => ?_⟩
  constructor <;>
    simp [generate_widget_large, generate_widget_small, resolveId, hv]

/-- Witness for C4 at the ready sample client, whose resolved id is 5. -/
theorem c4_widgets_pure_witness :
    generate_widget_small sampleClientReady none "A1" "B2" "C3" "D4" "E5"
      = generate_widget_small sampleClientReady (some 5) "A1" "B2" "C3" "D4" "E5" :=
  ((c4_widgets_pure sampleClientReady none "t" "m" "u" "ce" "d" "l" "hi"
    "A1" "B2" "C3" "D4" "E5").2.2.2.2.2.2 5 rfl).2

/-- C5 counterexample: at bot_id 123 on the ready sample client,
get_widget_small does not return the same string as
generate_widget_small with all styling parameters at their defaults
(the former has no query string at all). -/
theorem c5_counterexample :
    get_widget_small sampleClientReady (some 123)
      ≠ (generate_widget_small_defaults sampleClientReady (some 123)).1 := by
  decide

/-- C5 amended: get_widget_large and get_widget_small return the bare
widget URL with no query string; the generate variant with default
styling equals that bare URL with the corresponding default query
string appended, so the two strings always differ by that suffix. -/
theorem c5_get_widget_bare (c : ClientState) (bot_id : Option Int) :
    (generate_widget_large_defaults c bot_id).1
      = get_widget_large c bot_id
        ++ "?topcolor=2C2F33&middlecolor=23272A&usernamecolor=FFFFFF&certifiedcolor=FFFFFF&datacolor=FFFFFF&labelcolor=99AAB5&highlightcolor=2C2F33" ∧
    (generate_widget_small_defaults c bot_id).1
      = get_widget_small c bot_id
        ++ "?avatarbg=2C2F33&lefttextcolor=FFFFFF&righttextcolor=FFFFFF&leftcolor=23272A&rightcolor=2C2F33" := by
  constructor <;>
    simp [generate_widget_large_defaults, generate_widget_small_defaults,
      generate_widget_large, generate_widget_small, get_widget_large,
      get_widget_small, String.append_assoc]

/-- C6 counterexample: on the ready sample client (resolved id 5),
calling get_upvote_info with the bot_id keyword present but set to None
does not behave like calling it with the resolved identifier: the
former forwards None to the HTTP layer, the latter forwards 5. -/
theorem c6_counterexample :
    get_upvote_info sampleClientReady
        { bot_id := some none, onlyids := none, only_ids := none, days := none }
      ≠ get_upvote_info sampleClientReady
        { bot_id := some (some 5), onlyids := none, only_ids := none, days := none } := by
  decide

/-- C6 amended: for get_server_count, get_bot_info and the four widget
operations, an omitted (or None) bot_id behaves identically to passing
the resolved identifier, and an explicit id is used unchanged; for
get_upvote_info only an absent bot_id keyword defaults to the resolved
identifier, while a present keyword (even with value None) is forwarded
unchanged. -/
theorem c6_bot_id_defaulting (c : ClientState) (v : Int)
    (top mid user cert data label highlight : String)
    (avabg lcol rcol ltxt rtxt : String) (k : UpvoteKwargs) :
    get_server_count c none = get_server_count c c.bot_id ∧
    get_bot_info c none = get_bot_info c c.bot_id ∧
    get_widget_large c none = get_widget_large c c.bot_id ∧
    get_widget_small c none = get_widget_small c c.bot_id ∧
    generate_widget_large c none top mid user cert data label highlight
      = generate_widget_large c c.bot_id top mid user cert data label highlight ∧
    generate_widget_small c none avabg lcol rcol ltxt rtxt
      = generate_widget_small c c.bot_id avabg lcol rcol ltxt rtxt ∧
    get_server_count c (some v) = Request.getServerCount (some v) ∧
    get_bot_info c (some v) = Request.getBotInfo (some v) ∧
    get_upvote_info c { k with bot_id := none }
      = Request.getUpvoteInfo c.bot_id (k.onlyids.getD false) (k.days.getD 31) ∧
    (∀ w : Option Int, get_upvote_info c { k with bot_id := some w }
      = Request.getUpvoteInfo w (k.onlyids.getD false) (k.days.getD 31)) := by
  refine ⟨?_, ?_, ?_, ?_, ?_, ?_, rfl, rfl, rfl, fun w => rfl⟩ <;>
    simp [get_server_count, get_bot_info, get_widget_large, get_widget_small,
      generate_widget_large, generate_widget_small, resolveId_none,
      resolveId_self]

/-- C7 counterexample: on the ready sample client, a caller passing the
keyword only_ids with value true does not get the ids variant: the code
reads only the key named onlyids, so false is forwarded. -/
theorem c7_counterexample :
    get_upvote_info sampleClientReady
        { bot_id := none, onlyids := none, only_ids := some true, days := none }
      = Request.getUpvoteInfo (some 5) false 31 ∧
    Request.getUpvoteInfo (some 5) false 31
      ≠ Request.getUpvoteInfo (some 5) true 31 := by
  exact ⟨rfl, by decide⟩

/-- C7 amended: get_upvote_info accepts keyword parameters named
onlyids (defaulting to false) and days (defaulting to 31) and forwards
their caller-supplied values, together with the possibly defaulted
bot_id, to the HTTP layer; a caller passing onlyids true gets the ids
variant, while a keyword named only_ids is ignored. -/
theorem c7_get_upvote_info_forwards (c : ClientState) (b : Bool) (d : Int)
    (bk : Option (Option Int)) (oi oi2 : Option Bool) :
    get_upvote_info c { bot_id := bk, onlyids := some b, only_ids := oi, days := some d }
      = Request.getUpvoteInfo (bk.getD c.bot_id) b d ∧
    get_upvote_info c { bot_id := bk, onlyids := none, only_ids := oi, days := none }
      = Request.getUpvoteInfo (bk.getD c.bot_id) false 31 ∧
    get_upvote_info c { bot_id := bk, onlyids := some b, only_ids := oi, days := some d }
      = get_upvote_info c { bot_id := bk, onlyids := some b, only_ids := oi2, days := some d } :=
  ⟨rfl, rfl, rfl⟩

/-- C8 counterexample: a 403 response is a non-2xx status other than
401, 404 and 429, yet it signals Unauthorized, not the generic
HTTPError carrying 403. -/
theorem c8_counterexample :
    handleResponse 403 "body" = .error DBLError.unauthorized ∧
    handleResponse 403 "body" ≠ .error (DBLError.httpError 403) := by
  decide

/-- C8 amended: a 401 or 403 response signals Unauthorized, a 404
NotFound, a 429 RateLimited, and any other non-2xx status (for example
500) the generic HTTPError carrying the original status code; a 2xx
status signals nothing and returns the decoded body. -/
theorem c8_status_mapping (status : Nat) (body : String) :
    (200 ≤ status ∧ status < 300 → handleResponse status body = .ok body) ∧
    (status = 401 ∨ status = 403 →
      handleResponse status body = .error DBLError.unauthorized) ∧
    (status = 404 → handleResponse status body = .error DBLError.notFound) ∧
    (status = 429 → handleResponse status body = .error DBLError.rateLimited) ∧
    (¬(200 ≤ status ∧ status < 300) → status ≠ 401 → status ≠ 403 →
      status ≠ 404 → status ≠ 429 →
      handleResponse status body = .error (DBLError.httpError status)) := by
  refine ⟨fun h => ?_, fun h => ?_, fun h => ?_, fun h => ?_,
    fun h h1 h3 h4 h9 => ?_⟩
  · rw [handleResponse, if_pos h]
  · rcases h with h | h <;> subst h <;> simp [handleResponse]
  · subst h; simp [handleResponse]
  · subst h; simp [handleResponse]
  · rw [handleResponse, if_neg h,
      if_neg (by rintro (h | h) <;> [exact h1 h; exact h3 h]),
      if_neg h4, if_neg h9]

/-- Witness for C8 at status 500. -/
theorem c8_status_mapping_witness :
    handleResponse 500 "oops" = .error (DBLError.httpError 500) :=
  (c8_status_mapping 500 "oops").2.2.2.2 (by decide) (by decide) (by decide)
    (by decide) (by decide)

/-- C9: from construction until the readiness task runs, bot_id holds
None, and a widget call with bot_id omitted embeds the unset value in
the URL; once the trace contains the readiness event, bot_id equals the
host identifier and stays so; no event other than the readiness event
ever writes bot_id. -/
theorem c9_bot_id_lifecycle (b : Bot) (es : List Event) :
    (initState b).bot_id = none ∧
    (Event.ainitDone ∉ es →
      (run b es).bot_id = none ∧
      get_widget_large (run b es) none
        = "https://discordbots.org/api/widget/None.png") ∧
    (Event.ainitDone ∈ es → (run b es).bot_id = some b.userId) ∧
    (∀ c : ClientState, ∀ e : Event, e ≠ Event.ainitDone →
      (step c e).bot_id = c.bot_id) := by
  refine ⟨rfl, fun hnot => ?_, fun hmem => ?_, step_bot_id_of_ne⟩
  · have hid : (run b es).bot_id = none :=
      foldl_bot_id_of_no_ainit es (initState b) hnot
    refine ⟨hid, ?_⟩
    simp [get_widget_large, resolveId, hid, pyStr]
  · exact foldl_bot_id_of_ainit es (initState b) hmem

/-- Witness for C9: a trace with one close then the readiness event
leaves bot_id at the host identifier 5. -/
theorem c9_bot_id_lifecycle_witness :
    (run sampleBot [Event.closeCall (.ok ()), Event.ainitDone]).bot_id = some 5 :=
  (c9_bot_id_lifecycle sampleBot
    [Event.closeCall (.ok ()), Event.ainitDone]).2.2.1 (by decide)

/-- C10: when the underlying session release raises during close, the
error propagates, the closed flag stays false and the client is not
recorded as closed, so a later close call attempts the release again. -/
theorem c10_close_error_keeps_open (c : ClientState) (e : String)
    (hc : c.is_closed = false) :
    (close c (.error e)).2 = .error e ∧
    (close c (.error e)).1.is_closed = false ∧
    (close c (.error e)).1.bot_id = c.bot_id ∧
    (close c (.error e)).1.httpCloseCalls = c.httpCloseCalls + 1 ∧
    (close (close c (.error e)).1 (.ok ())).1.httpCloseCalls
      = c.httpCloseCalls + 2 := by
  simp [close, hc]

/-- Witness for C10 on a fresh client whose session close raises. -/
theorem c10_close_error_keeps_open_witness :
    (close (initState sampleBot) (.error "boom")).1.is_closed = false :=
  (c10_close_error_keeps_open (initState sampleBot) "boom" rfl).2.1

end DBL
